import Mathlib

/-
Verification development for the rspc procedure registry.

Part 1 embeds the modern composable router (`rspc/src/router.rs`,
`Router2`): an ordered map from multi-segment paths to procedures,
with `procedure`, `nest`, `merge` and the terminal
`build_with_state_inner`.

Part 2 embeds the legacy execution dispatcher and TypeScript export
(`crates/legacy/src/router.rs`): `Router::exec`,
`Router::exec_subscription` and `generate_procedures_ts`.

Modelling conventions:
- `BTreeMap` is embedded as an association list with unique keys
  (`btreeGet` / `btreeInsert` / `btreeExtend` mirror `get`, `insert`
  and `extend`: insert overwrites an existing binding in place and
  otherwise appends).  No theorem below depends on the sorted
  iteration order of a `BTreeMap`; where the source iterates a map,
  the claims proved are order-insensitive (set-level) or evaluated on
  concrete inputs.
- Opaque payloads (boxed setup closures, the specta `TypeCollection`,
  procedure type data, erased procedure handlers) are carried as type
  parameters `S`, `G`, `T`, `P`: the composition code never inspects
  them, it only moves them around, which the embedding reproduces.
- In `build_with_state_inner` the source applies every deferred setup
  closure to a fresh `State` and erases each procedure with
  `(p.inner)(state.clone())`.  The state is invisible to every claim,
  so the embedding stores the opaque handler payload `p.inner`
  directly; the `unreachable!()` hit when a full path is also a
  proper prefix of another path is modelled as `Option.none`.
- Rust `k[0]` on a path is embedded as `List.head?`; every path the
  source ever stores is non-empty, so the two agree on reachable
  states.
-/

namespace Rspc

/-- Association-list embedding of `BTreeMap::get`: the value bound to
the first (and, on unique-key lists, only) occurrence of the key. -/
def btreeGet {κ α : Type} [DecidableEq κ] (m : List (κ × α)) (k : κ) : Option α :=
  match m with
  | [] => none
  | (k2, v) :: rest => if k2 = k then some v else btreeGet rest k

/-- Association-list embedding of `BTreeMap::insert`: overwrite the
existing binding in place, otherwise append the new binding. -/
def btreeInsert {κ α : Type} [DecidableEq κ] (k : κ) (v : α) : List (κ × α) → List (κ × α)
  | [] => [(k, v)]
  | (k2, v2) :: rest => if k2 = k then (k, v) :: rest else (k2, v2) :: btreeInsert k v rest

/-- Association-list embedding of `BTreeMap::extend`: insert each
binding of the second map, in order, into the first. -/
def btreeExtend {κ α : Type} [DecidableEq κ] (m : List (κ × α)) : List (κ × α) → List (κ × α)
  | [] => m
  | (k, v) :: rest => btreeExtend (btreeInsert k v m) rest

/-- Embedding of `rspc::router::Error`: the only variant is
`DuplicateProcedures(Vec<Cow<str>>)`, carrying the colliding path. -/
inductive Err where
  | DuplicateProcedures (key : List String)
deriving DecidableEq, Repr

/-- Embedding of `Procedure2`: its deferred setup closures (opaque
tokens `S`), its type data `ty : T` and its erased handler
constructor `inner : P`. -/
structure Procedure2 (S T P : Type) where
  setup : List S
  ty : T
  inner : P
deriving DecidableEq, Repr

/-- Embedding of `Router2`: deferred setup closures, the opaque specta
`TypeCollection` (`types : G`), the procedure map keyed by full paths,
and the accumulated error list. -/
structure Router (S G T P : Type) where
  setup : List S
  types : G
  procedures : List (List String × Procedure2 S T P)
  errors : List Err
deriving DecidableEq, Repr

/-- Embedding of `Router2::new` / `Default`: empty router (the opaque
`TypeCollection` default is passed explicitly). -/
def Router.new {S G T P : Type} (g : G) : Router S G T P :=
  { setup := [], types := g, procedures := [], errors := [] }

/-- Embedding of `Router2::procedure`: if some existing path has the
key as its first segment, record `DuplicateProcedures([key])`;
otherwise drain the procedure setup into the router and insert the
procedure at the single-segment path `[key]`. -/
def Router.procedure {S G T P : Type} (self : Router S G T P) (key : String)
    (p : Procedure2 S T P) : Router S G T P :=
  if self.procedures.any (fun kv => kv.1.head? == some key) then
    { self with errors := self.errors ++ [Err.DuplicateProcedures [key]] }
  else
    { self with
        setup := self.setup ++ p.setup,
        procedures := btreeInsert [key] { p with setup := [] } self.procedures }

/-- Embedding of `Router2::nest`: if some existing path has the prefix
as its first segment, record `DuplicateProcedures([prefix])` and drop
`other` entirely; otherwise append the setups of `other`, absorb every
procedure of `other` under the prefixed path, and absorb the errors of
`other` with the prefix prepended to their keys. -/
def Router.nest {S G T P : Type} (self : Router S G T P) (pfx : String)
    (other : Router S G T P) : Router S G T P :=
  if self.procedures.any (fun kv => kv.1.head? == some pfx) then
    { self with errors := self.errors ++ [Err.DuplicateProcedures [pfx]] }
  else
    { self with
        setup := self.setup ++ other.setup,
        procedures :=
          btreeExtend self.procedures
            (other.procedures.map (fun kv => (pfx :: kv.1, kv.2))),
        errors := self.errors ++ other.errors.map (fun e =>
          match e with
          | Err.DuplicateProcedures key => Err.DuplicateProcedures (pfx :: key)) }

/-- Embedding of `Router2::merge`: push one `DuplicateProcedures` per
key of `other` already present in `self`; then, exactly when the error
list grew, append the setups of `other`, extend the procedure map with
the procedures of `other` and append the errors of `other`. -/
def Router.merge {S G T P : Type} (self other : Router S G T P) : Router S G T P :=
  let dupKeys := (other.procedures.map Prod.fst).filter
    (fun k => (btreeGet self.procedures k).isSome)
  let errs := self.errors ++ dupKeys.map Err.DuplicateProcedures
  if errs.length > self.errors.length then
    { self with
        setup := self.setup ++ other.setup,
        procedures := btreeExtend self.procedures other.procedures,
        errors := errs ++ other.errors }
  else
    { self with errors := errs }

/-- Embedding of `get_flattened_name`: a single-segment path keeps its
segment, a multi-segment path is joined with `.`. -/
def get_flattened_name (name : List String) : String :=
  if name.length = 1 then name.getD 0 "" else String.intercalate "." name

/-- Embedding of `TypesOrType`: the procedure type tree built by
`build_with_state_inner`, with `BTreeMap` nodes as association
lists. -/
inductive TypesOrType (T : Type) where
  | type (t : T)
  | types (m : List (String × TypesOrType T))

/-- Embedding of the type-tree insertion loop of
`build_with_state_inner`: walk every segment but the last, entering
(or creating) `types` nodes, and bind the last segment to a `type`
leaf.  `none` models the two panics of the source: the index
underflow on an empty path and the `unreachable!()` on meeting a
`type` node mid-path. -/
def treeInsert {T : Type} (t : T) :
    List String → List (String × TypesOrType T) → Option (List (String × TypesOrType T))
  | [], _ => none
  | [last], m => some (btreeInsert last (TypesOrType.type t) m)
  | part :: rest :: more, m =>
    match btreeGet m part with
    | none =>
      match treeInsert t (rest :: more) [] with
      | none => none
      | some sub => some (btreeInsert part (TypesOrType.types sub) m)
    | some (TypesOrType.type _) => none
    | some (TypesOrType.types sub) =>
      match treeInsert t (rest :: more) sub with
      | none => none
      | some sub2 => some (btreeInsert part (TypesOrType.types sub2) m)

/-- Embedding of the procedure-walking loop of
`build_with_state_inner`: each procedure contributes its `ty` to the
type tree at its path and its erased handler to the flat store under
its flattened name. -/
def buildStore {S T P : Type} :
    List (List String × Procedure2 S T P) → List (String × P) →
    List (String × TypesOrType T) →
    Option (List (String × P) × List (String × TypesOrType T))
  | [], store, tree => some (store, tree)
  | (key, p) :: rest, store, tree =>
    match treeInsert p.ty key tree with
    | none => none
    | some tree2 => buildStore rest (store ++ [(get_flattened_name key, p.inner)]) tree2

/-- Embedding of the `Types` half of a successful build: the opaque
`TypeCollection` plus the procedure type tree. -/
structure Types (G T : Type) where
  types : G
  procedures : List (String × TypesOrType T)

/-- Embedding of `Router2::build_with_state_inner`: with a non-empty
error list return the errors; otherwise run the deferred setups
(invisible here, see the header comment) and walk the procedures once
to build the flat store and the type tree (`none` for the source's
panic). -/
def Router.build_with_state_inner {S G T P : Type} (self : Router S G T P) :
    Except (List Err) (Option (List (String × P) × Types G T)) :=
  if self.errors.length > 0 then
    Except.error self.errors
  else
    Except.ok (match buildStore self.procedures [] [] with
      | none => none
      | some (store, tree) => some (store, { types := self.types, procedures := tree }))

/-- Embedding of `Router2::build`: delegates to
`build_with_state_inner` with a default state. -/
def Router.build {S G T P : Type} (self : Router S G T P) :
    Except (List Err) (Option (List (String × P) × Types G T)) :=
  self.build_with_state_inner

/-- Concrete procedure payload (opaque setups, type data and handler
instantiated at `Unit`/`Nat`) used to evaluate the router model. -/
def procA : Procedure2 Unit Unit Nat := { setup := [], ty := (), inner := 1 }

/-- Second concrete procedure payload. -/
def procB : Procedure2 Unit Unit Nat := { setup := [], ty := (), inner := 2 }

/-- Concrete router holding one procedure at path `["a"]`. -/
def routerA : Router Unit Unit Unit Nat :=
  { setup := [], types := (), procedures := [(["a"], procA)], errors := [] }

/-- Concrete router holding one procedure at path `["b"]`, disjoint
from `routerA`. -/
def routerB : Router Unit Unit Unit Nat :=
  { setup := [], types := (), procedures := [(["b"], procB)], errors := [] }

/-- Concrete router holding one procedure at path `["x"]`. -/
def mergeA : Router Unit Unit Unit Nat :=
  { setup := [], types := (), procedures := [(["x"], procA)], errors := [] }

/-- Concrete router also holding a procedure at path `["x"]`, so that
`mergeA` and `mergeB` share exactly one full path. -/
def mergeB : Router Unit Unit Unit Nat :=
  { setup := [], types := (), procedures := [(["x"], procB)], errors := [] }

/-- Concrete router with a procedure at the two-segment path
`["a", "b"]`, so that its first segment collides with prefix `a`. -/
def collideRouter : Router Unit Unit Unit Nat :=
  { setup := [], types := (), procedures := [(["a", "b"], procA)], errors := [] }

/-- Concrete router with a non-empty accumulated error list. -/
def errRouter : Router Unit Unit Unit Nat :=
  { setup := [], types := (), procedures := [], errors := [Err.DuplicateProcedures ["x"]] }

/-- Concrete procedure with no setup, mirroring the procedures built
in the `errors` test of `rspc/src/router.rs`. -/
def qproc : Procedure2 Unit Unit Nat := { setup := [], ty := (), inner := 0 }

/-- The router of the third scenario of the `errors` test in
`rspc/src/router.rs`: nest `"abc"` twice, from two routers with
disjoint inner paths `kjl` and `def`. -/
def nestTwiceRouter : Router Unit Unit Unit Nat :=
  ((Router.new ()).nest "abc" ((Router.new ()).procedure "kjl" qproc)).nest
    "abc" ((Router.new ()).procedure "def" qproc)

end Rspc

namespace Legacy

/-- Embedding of `serde_json::Value` (numbers collapsed to integers;
no claim below inspects numeric values). -/
inductive Value where
  | null
  | bool (b : Bool)
  | num (n : Int)
  | str (s : String)
  | arr (xs : List Value)
  | obj (fields : List (String × Value))

/-- Embedding of `ProcedureKind` from the legacy internals. -/
inductive ProcedureKind where
  | query
  | mutation
  | subscription
deriving DecidableEq, Repr

/-- Embedding of `ExecKind` from `crates/legacy/src/router.rs`. -/
inductive ExecKind where
  | query
  | mutation
deriving DecidableEq, Repr

/-- Embedding of `RequestContext`: the kind and path handed to the
procedure on each call. -/
structure RequestContext where
  kind : ProcedureKind
  path : String

/-- Embedding of the `ExecError` variants the dispatcher in
`crates/legacy/src/router.rs` produces, plus one opaque variant for
every error a handler propagates verbatim (spec section 7 taxonomy). -/
inductive ExecError where
  | OperationNotFound (path : String)
  | UnsupportedMethod (path : String)
  | Handler (detail : String)

/-- Embedding of `ValueOrStream`: the normalized outcome of a call,
either one terminal value or a stream of fallible values (the lazy
stream is carried as an opaque finite representation; the dispatcher
never inspects it). -/
inductive ValueOrStream where
  | value (v : Value)
  | stream (s : List (Except ExecError Value))

/-- Embedding of a stored legacy `Procedure`: the composition of
`exec.call(ctx, input, req)?` and `.into_value_or_stream().await?`,
i.e. the fallible resolution of a call to its normalized outcome. -/
structure Procedure (Ctx : Type) where
  exec : Ctx → Value → RequestContext → Except ExecError ValueOrStream

/-- Embedding of `ProcedureStore`: a `BTreeMap<String, Procedure>`
as an association list with unique keys. -/
structure ProcedureStore (Ctx : Type) where
  store : List (String × Procedure Ctx)

/-- Embedding of the legacy `Router`: the three per-kind partitions.
The `config` and `type_map` fields only feed the export path, where
they are absorbed into the external renderer parameter. -/
structure Router (Ctx : Type) where
  queries : ProcedureStore Ctx
  mutations : ProcedureStore Ctx
  subscriptions : ProcedureStore Ctx

/-- Freshly built empty registry: all three partitions empty. -/
def Router.empty (Ctx : Type) : Router Ctx :=
  { queries := ⟨[]⟩, mutations := ⟨[]⟩, subscriptions := ⟨[]⟩ }

/-- Partition selected by `Router::exec` for an `ExecKind`, together
with the `ProcedureKind` it passes in the request context. -/
def execPartition {Ctx : Type} (self : Router Ctx) (kind : ExecKind) :
    List (String × Procedure Ctx) × ProcedureKind :=
  match kind with
  | ExecKind.query => (self.queries.store, ProcedureKind.query)
  | ExecKind.mutation => (self.mutations.store, ProcedureKind.mutation)

/-- Embedding of `Router::exec`: select the partition by kind, look
the key up (miss is `OperationNotFound`), resolve the call, and accept
only a `Value` outcome (`Stream` is `UnsupportedMethod`). -/
def Router.exec {Ctx : Type} (self : Router Ctx) (ctx : Ctx) (kind : ExecKind)
    (key : String) (input : Option Value) : Except ExecError Value :=
  let part := execPartition self kind
  match Rspc.btreeGet part.1 key with
  | none => Except.error (ExecError.OperationNotFound key)
  | some p =>
    match p.exec ctx (input.getD Value.null) { kind := part.2, path := key } with
    | Except.error e => Except.error e
    | Except.ok (ValueOrStream.value v) => Except.ok v
    | Except.ok (ValueOrStream.stream _) => Except.error (ExecError.UnsupportedMethod key)

/-- Embedding of `Router::exec_subscription`: look the key up in the
subscription partition (miss is `OperationNotFound`), resolve the
call, and accept only a `Stream` outcome (`Value` is
`UnsupportedMethod`). -/
def Router.exec_subscription {Ctx : Type} (self : Router Ctx) (ctx : Ctx)
    (key : String) (input : Option Value) :
    Except ExecError (List (Except ExecError Value)) :=
  match Rspc.btreeGet self.subscriptions.store key with
  | none => Except.error (ExecError.OperationNotFound key)
  | some p =>
    match p.exec ctx (input.getD Value.null)
        { kind := ProcedureKind.subscription, path := key } with
    | Except.error e => Except.error e
    | Except.ok (ValueOrStream.value _) => Except.error (ExecError.UnsupportedMethod key)
    | Except.ok (ValueOrStream.stream s) => Except.ok s

/-- Embedding of the subset of the specta `DataType` the export code
distinguishes: the renderer special-cases `Tuple`; every other
constructor is only ever handed to the external renderer, so the
remaining constructors are collapsed into representative cases. -/
inductive DataType where
  | tuple (elements : List DataType)
  | primitive (name : String)
  | reference (name : String)

/-- Embedding of the per-procedure type data (`ProcedureDataType`):
the argument and result `DataType`. -/
structure ProcedureTy where
  arg_ty : DataType
  result_ty : DataType

/-- Input rendering branch of `generate_procedures_ts`: an empty
tuple (empty enum or unit argument) renders as `never`, every other
type goes through the external `specta_typescript::datatype`
renderer (the `render` parameter, which absorbs the typescript
config and the type map). -/
def renderInput (render : DataType → String) : DataType → String
  | DataType.tuple els => if els.isEmpty then "never" else render (DataType.tuple els)
  | ty => render ty

/-- Embedding of `generate_procedures_ts`: an empty store renders as
`never`; otherwise each entry becomes a record with its key, rendered
input and rendered result, and the records are joined with ` | `. -/
def generate_procedures_ts (render : DataType → String)
    (procedures : List (String × ProcedureTy)) : String :=
  match procedures.length with
  | 0 => "never"
  | _ =>
    String.intercalate " | " (procedures.map (fun kv =>
      let key := kv.1
      let input := renderInput render kv.2.arg_ty
      let result_ts := render kv.2.result_ty
      "\n        \x7b key: \"" ++ key ++ "\", input: " ++ input ++
        ", result: " ++ result_ts ++ " \x7d"))

/-- Concrete procedure whose every call resolves to a `Stream`
outcome. -/
def streamProc : Procedure Unit :=
  { exec := fun _ _ _ => Except.ok (ValueOrStream.stream []) }

/-- Concrete procedure whose every call resolves to a single `Value`
outcome. -/
def valueProc : Procedure Unit :=
  { exec := fun _ _ _ => Except.ok (ValueOrStream.value Value.null) }

/-- Concrete router with a stream-resolving procedure registered as a
query and a value-resolving procedure registered as a subscription,
so that both dispatch entry points are invoked against the wrong
outcome shape. -/
def mismatchRouter : Router Unit :=
  { queries := ⟨[("q", streamProc)]⟩,
    mutations := ⟨[]⟩,
    subscriptions := ⟨[("s", valueProc)]⟩ }

end Legacy

namespace Rspc

/-- Key membership in an association list characterizes a successful
`btreeGet`. -/
theorem btreeGet_isSome_iff {κ α : Type} [DecidableEq κ] (m : List (κ × α)) (k : κ) :
    (btreeGet m k).isSome = true ↔ k ∈ m.map Prod.fst := by
  induction m with
  | nil => simp [btreeGet]
  | cons kv rest ih =>
    obtain ⟨k2, v⟩ := kv
    by_cases h : k2 = k
    · subst h
      simp [btreeGet]
    · simp [btreeGet, h, ih, Ne.symm h]

/-- Inserting a fresh key appends the binding at the end. -/
theorem btreeInsert_of_not_mem {κ α : Type} [DecidableEq κ] (k : κ) (v : α)
    (m : List (κ × α)) (h : k ∉ m.map Prod.fst) :
    btreeInsert k v m = m ++ [(k, v)] := by
  induction m with
  | nil => rfl
  | cons kv rest ih =>
    obtain ⟨k2, v2⟩ := kv
    have h1 : ¬k2 = k := by
      intro hh
      exact h (by simp [hh])
    have h2 : k ∉ rest.map Prod.fst := by
      intro hh
      exact h (by simp [hh])
    simp [btreeInsert, h1, ih h2]

/-- Extending with bindings whose keys are fresh and mutually
distinct appends them in order. -/
theorem btreeExtend_of_fresh {κ α : Type} [DecidableEq κ] (l : List (κ × α)) :
    ∀ m : List (κ × α),
      (∀ k ∈ l.map Prod.fst, k ∉ m.map Prod.fst) →
      (l.map Prod.fst).Nodup →
      btreeExtend m l = m ++ l := by
  induction l with
  | nil =>
    intro m _ _
    simp [btreeExtend]
  | cons kv rest ih =>
    intro m hdisj hnodup
    obtain ⟨k, v⟩ := kv
    simp only [List.map_cons, List.nodup_cons] at hnodup
    have hk : k ∉ m.map Prod.fst := hdisj k (by simp)
    have hrest : ∀ k2 ∈ rest.map Prod.fst, k2 ∉ (m ++ [(k, v)]).map Prod.fst := by
      intro k2 hk2
      simp only [List.map_append, List.mem_append, List.map_cons, List.map_nil,
        List.mem_singleton]
      push_neg
      refine ⟨hdisj k2 (by simp [hk2]), ?_⟩
      intro hh
      exact hnodup.1 (by rwa [hh] at hk2)
    calc btreeExtend m ((k, v) :: rest)
        = btreeExtend (btreeInsert k v m) rest := rfl
      _ = btreeExtend (m ++ [(k, v)]) rest := by rw [btreeInsert_of_not_mem k v m hk]
      _ = (m ++ [(k, v)]) ++ rest := ih (m ++ [(k, v)]) hrest hnodup.2
      _ = m ++ (k, v) :: rest := by simp

/-- A build whose accumulated error list is non-empty returns exactly
that list. -/
theorem build_eq_error_of_errors {S G T P : Type} (r : Router S G T P)
    (h : r.errors ≠ []) : r.build = Except.error r.errors := by
  have hlen : r.errors.length > 0 := List.length_pos.mpr h
  simp [Router.build, Router.build_with_state_inner, hlen]

/-- Prefixing the keys of a unique-key procedure list keeps them
unique. -/
theorem mapped_keys_nodup {S T P : Type} (p : String)
    (l : List (List String × Procedure2 S T P))
    (h : (l.map Prod.fst).Nodup) :
    ((l.map (fun kv => (p :: kv.1, kv.2))).map Prod.fst).Nodup := by
  rw [List.map_map]
  have h1 : (Prod.fst ∘ fun kv : List String × Procedure2 S T P => (p :: kv.1, kv.2))
      = (List.cons p) ∘ Prod.fst := rfl
  rw [h1, ← List.map_map]
  exact h.map (fun a b hh => by injection hh)

/-- With no collision on the top-level prefix, every prefixed key of
`other` is fresh for the receiver. -/
theorem mapped_keys_fresh {S G T P : Type} (r : Router S G T P) (p : String)
    (h : r.procedures.any (fun kv => kv.1.head? == some p) = false)
    (l : List (List String × Procedure2 S T P)) :
    ∀ k ∈ (l.map (fun kv => (p :: kv.1, kv.2))).map Prod.fst,
      k ∉ r.procedures.map Prod.fst := by
  intro k hk hkr
  rw [List.map_map] at hk
  obtain ⟨kv, _, hkeq⟩ := List.mem_map.mp hk
  obtain ⟨kv2, hkv2, hkeq2⟩ := List.mem_map.mp hkr
  have hall := List.any_eq_false.mp h kv2 hkv2
  apply hall
  have hk2 : kv2.1 = p :: kv.1 := by
    rw [hkeq2]
    exact hkeq.symm
  rw [hk2]
  simp

/-- Characterization of `Router2::nest` when the prefix does not
collide with any existing top-level segment: setups are appended,
every procedure of `other` is absorbed under the prefixed path after
the receiver's own entries, and the errors of `other` are absorbed
with the prefix prepended to their keys. -/
theorem nest_no_collision {S G T P : Type} (r o : Router S G T P) (p : String)
    (h : r.procedures.any (fun kv => kv.1.head? == some p) = false)
    (hnodup : (o.procedures.map Prod.fst).Nodup) :
    r.nest p o = { r with
      setup := r.setup ++ o.setup,
      procedures := r.procedures ++ o.procedures.map (fun kv => (p :: kv.1, kv.2)),
      errors := r.errors ++ o.errors.map (fun e =>
        match e with
        | Err.DuplicateProcedures key => Err.DuplicateProcedures (p :: key)) } := by
  have hext := btreeExtend_of_fresh (o.procedures.map (fun kv => (p :: kv.1, kv.2)))
    r.procedures (mapped_keys_fresh r p h o.procedures) (mapped_keys_nodup p o.procedures hnodup)
  simp [Router.nest, h, hext]

/-- Characterization of `Router2::nest` when the prefix collides with
an existing top-level segment: the single error is appended and
everything else, `other` included, is left alone. -/
theorem nest_collision {S G T P : Type} (r o : Router S G T P) (p : String)
    (h : r.procedures.any (fun kv => kv.1.head? == some p) = true) :
    r.nest p o = { r with errors := r.errors ++ [Err.DuplicateProcedures [p]] } := by
  unfold Router.nest
  rw [if_pos h]

end Rspc

/-- C1: on routers with disjoint full paths (here `["a"]` vs `["b"]`,
both error-free), `merge` followed by `build` succeeds but the
resulting store holds only the receiver's operation: the procedures
of the merged-in router are dropped, because `Router2::merge` only
extends the procedure map inside the branch taken when a duplicate
was found.  The spec requires the union of both operation sets. -/
theorem merge_disjoint_drops_other :
    (Rspc.routerA.merge Rspc.routerB).build
      = Except.ok (some ([("a", 1)],
          { types := (), procedures := [("a", Rspc.TypesOrType.type ())] }))
    ∧ Rspc.btreeGet (Rspc.routerA.merge Rspc.routerB).procedures ["b"] = none := by
  constructor
  · rfl
  · rfl

/-- C2 counterexample: the claim says nesting two routers with
disjoint inner paths (`kjl` and `def`) twice under the same prefix
`abc` builds successfully; on the code (and its own `errors` test)
the second `nest` records `DuplicateProcedures(["abc"])` and `build`
fails. -/
theorem nest_twice_same_prefix_counterexample :
    Rspc.nestTwiceRouter.build = Except.error [Rspc.Err.DuplicateProcedures ["abc"]]
    ∧ Rspc.nestTwiceRouter.build.isOk = false := by
  constructor
  · rfl
  · rfl

/-- C2 (amended): nesting twice under the same prefix on a fresh
router, where the first nested router is error-free and non-empty,
always fails: the shallow top-level check of the second `nest` fires
even though the inner paths are disjoint, and `build` returns exactly
`[DuplicateProcedures([prefix])]`. -/
theorem nest_twice_same_prefix_fails {S G T P : Type} (g : G) (p : String)
    (r1 r2 : Rspc.Router S G T P)
    (h1 : r1.procedures ≠ []) (herr : r1.errors = [])
    (hnodup : (r1.procedures.map Prod.fst).Nodup) :
    (((Rspc.Router.new g).nest p r1).nest p r2).build
      = Except.error [Rspc.Err.DuplicateProcedures [p]] := by
  have hfirst : (Rspc.Router.new g).nest p r1 = { (Rspc.Router.new g : Rspc.Router S G T P) with
      setup := (Rspc.Router.new g : Rspc.Router S G T P).setup ++ r1.setup,
      procedures := (Rspc.Router.new g : Rspc.Router S G T P).procedures
        ++ r1.procedures.map (fun kv => (p :: kv.1, kv.2)),
      errors := (Rspc.Router.new g : Rspc.Router S G T P).errors ++ r1.errors.map (fun e =>
        match e with
        | Rspc.Err.DuplicateProcedures key => Rspc.Err.DuplicateProcedures (p :: key)) } :=
    Rspc.nest_no_collision (Rspc.Router.new g) r1 p rfl hnodup
  have hprocs : ((Rspc.Router.new g).nest p r1).procedures
      = r1.procedures.map (fun kv => (p :: kv.1, kv.2)) := by
    rw [hfirst]
    simp [Rspc.Router.new]
  have herrs : ((Rspc.Router.new g).nest p r1).errors = [] := by
    rw [hfirst]
    simp [Rspc.Router.new, herr]
  have hany : (((Rspc.Router.new g).nest p r1).procedures.any
      (fun kv => kv.1.head? == some p)) = true := by
    rw [hprocs]
    cases hc : r1.procedures with
    | nil => exact absurd hc h1
    | cons kv0 rest => simp
  have hsecond : (((Rspc.Router.new g).nest p r1).nest p r2).errors
      = [Rspc.Err.DuplicateProcedures [p]] := by
    rw [Rspc.nest_collision ((Rspc.Router.new g).nest p r1) r2 p hany]
    simp [herrs]
  have := Rspc.build_eq_error_of_errors (((Rspc.Router.new g).nest p r1).nest p r2)
    (by rw [hsecond]; exact List.cons_ne_nil _ _)
  rw [this, hsecond]

/-- C2 witness for the amended theorem, at the input of the `errors`
test of `rspc/src/router.rs`. -/
theorem nest_twice_same_prefix_fails_witness :
    (((Rspc.Router.new ()).nest "abc" ((Rspc.Router.new ()).procedure "kjl" Rspc.qproc)).nest
        "abc" ((Rspc.Router.new ()).procedure "def" Rspc.qproc)).build
      = Except.error [Rspc.Err.DuplicateProcedures ["abc"]] :=
  nest_twice_same_prefix_fails () "abc"
    ((Rspc.Router.new ()).procedure "kjl" Rspc.qproc)
    ((Rspc.Router.new ()).procedure "def" Rspc.qproc)
    (by decide) (by decide) (by decide)

/-- C3: merging two individually error-free routers that share at
least one full path fails at build with one `DuplicateProcedures` per
shared path (the list is duplicate-free), and the reported paths are
exactly the intersection of the two key sets. -/
theorem merge_shared_paths_build_errors {S G T P : Type} (a b : Rspc.Router S G T P)
    (ha : a.errors = []) (hb : b.errors = [])
    (hnodup : (b.procedures.map Prod.fst).Nodup)
    (k0 : List String)
    (ha0 : (Rspc.btreeGet a.procedures k0).isSome = true)
    (hb0 : (Rspc.btreeGet b.procedures k0).isSome = true) :
    (a.merge b).build
      = Except.error (((b.procedures.map Prod.fst).filter
          (fun k => (Rspc.btreeGet a.procedures k).isSome)).map Rspc.Err.DuplicateProcedures)
    ∧ ((b.procedures.map Prod.fst).filter
        (fun k => (Rspc.btreeGet a.procedures k).isSome)).Nodup
    ∧ (∀ k, k ∈ (b.procedures.map Prod.fst).filter
          (fun k => (Rspc.btreeGet a.procedures k).isSome)
        ↔ ((Rspc.btreeGet a.procedures k).isSome = true
            ∧ (Rspc.btreeGet b.procedures k).isSome = true)) := by
  have hk0mem : k0 ∈ (b.procedures.map Prod.fst).filter
      (fun k => (Rspc.btreeGet a.procedures k).isSome) :=
    List.mem_filter.mpr ⟨(Rspc.btreeGet_isSome_iff b.procedures k0).mp hb0, ha0⟩
  have hne : (b.procedures.map Prod.fst).filter
      (fun k => (Rspc.btreeGet a.procedures k).isSome) ≠ [] := by
    intro hh
    rw [hh] at hk0mem
    exact absurd hk0mem (List.not_mem_nil k0)
  have hcond : (a.errors ++ ((b.procedures.map Prod.fst).filter
      (fun k => (Rspc.btreeGet a.procedures k).isSome)).map
        Rspc.Err.DuplicateProcedures).length > a.errors.length := by
    rw [ha]
    simp only [List.nil_append, List.length_map, List.length_nil]
    exact List.length_pos.mpr hne
  have hmerge_errors : (a.merge b).errors
      = ((b.procedures.map Prod.fst).filter
          (fun k => (Rspc.btreeGet a.procedures k).isSome)).map
            Rspc.Err.DuplicateProcedures := by
    simp only [Rspc.Router.merge]
    rw [if_pos hcond]
    simp [ha, hb]
  have hb2 := Rspc.build_eq_error_of_errors (a.merge b) (by
    rw [hmerge_errors]
    intro hh
    exact hne (List.map_eq_nil_iff.mp hh))
  refine ⟨by rw [hb2, hmerge_errors], hnodup.filter _, ?_⟩
  intro k
  rw [List.mem_filter, ← Rspc.btreeGet_isSome_iff]
  exact And.comm

/-- C3 witness, at routers sharing exactly the path `["x"]`. -/
theorem merge_shared_paths_build_errors_witness :
    (Rspc.mergeA.merge Rspc.mergeB).build
      = Except.error [Rspc.Err.DuplicateProcedures ["x"]] :=
  (merge_shared_paths_build_errors Rspc.mergeA Rspc.mergeB rfl rfl
    (by decide) ["x"] rfl rfl).1

/-- C4: if no procedure of the receiver has the prefix as its first
path segment, `nest` absorbs every procedure of `other` with the
prefix prepended to its path, after the receiver's entries, which
stay unchanged; otherwise it records one `DuplicateProcedures` error
keyed by the path made of the prefix. -/
theorem nest_spec {S G T P : Type} (r o : Rspc.Router S G T P) (pfx : String)
    (hnodup : (o.procedures.map Prod.fst).Nodup) :
    (r.procedures.any (fun kv => kv.1.head? == some pfx) = true →
      r.nest pfx o
        = { r with errors := r.errors ++ [Rspc.Err.DuplicateProcedures [pfx]] })
    ∧ (r.procedures.any (fun kv => kv.1.head? == some pfx) = false →
      (r.nest pfx o).procedures
        = r.procedures ++ o.procedures.map (fun kv => (pfx :: kv.1, kv.2))) := by
  constructor
  · intro h
    exact Rspc.nest_collision r o pfx h
  · intro h
    rw [Rspc.nest_no_collision r o pfx h hnodup]

/-- C4 witness: nesting a one-procedure router under the fresh prefix
`v1` absorbs it at the prefixed path. -/
theorem nest_spec_witness :
    (Rspc.collideRouter.nest "v1" Rspc.mergeA).procedures
      = Rspc.collideRouter.procedures
        ++ Rspc.mergeA.procedures.map (fun kv => ("v1" :: kv.1, kv.2)) :=
  (nest_spec Rspc.collideRouter Rspc.mergeA "v1" (by decide)).2 (by decide)

/-- C5: a build on a router with a non-empty accumulated error list
returns exactly that list, in accumulation order, and produces
neither a procedure store nor a type tree. -/
theorem build_returns_accumulated_errors {S G T P : Type} (r : Rspc.Router S G T P)
    (h : r.errors ≠ []) :
    r.build = Except.error r.errors :=
  Rspc.build_eq_error_of_errors r h

/-- C5 witness, at a router carrying one accumulated error. -/
theorem build_returns_accumulated_errors_witness :
    Rspc.errRouter.errors ≠ []
    ∧ Rspc.errRouter.build = Except.error Rspc.errRouter.errors :=
  ⟨by decide, build_returns_accumulated_errors Rspc.errRouter (by decide)⟩

/-- C10: when `nest` detects a prefix collision, the receiver is
returned with only the single `DuplicateProcedures([prefix])` error
appended: its setups, type collection and procedure map are
untouched, and no procedure, setup or error of `other` is
absorbed. -/
theorem nest_collision_preserves_receiver {S G T P : Type} (r o : Rspc.Router S G T P)
    (pfx : String)
    (h : r.procedures.any (fun kv => kv.1.head? == some pfx) = true) :
    r.nest pfx o = { r with errors := r.errors ++ [Rspc.Err.DuplicateProcedures [pfx]] } :=
  Rspc.nest_collision r o pfx h

/-- C10 witness: prefix `a` collides with the stored path
`["a", "b"]`. -/
theorem nest_collision_preserves_receiver_witness :
    Rspc.collideRouter.nest "a" Rspc.routerB
      = { Rspc.collideRouter with
          errors := Rspc.collideRouter.errors ++ [Rspc.Err.DuplicateProcedures ["a"]] } :=
  nest_collision_preserves_receiver Rspc.collideRouter Rspc.routerB "a" (by decide)

/-- C6: a call whose key is not present in the store partition
matching the kind fails with `OperationNotFound(key)`, for both entry
points; on a freshly built empty registry every call fails that way,
for any key. -/
theorem exec_operation_not_found {Ctx : Type} (r : Legacy.Router Ctx) (ctx : Ctx)
    (kind : Legacy.ExecKind) (key : String) (input : Option Legacy.Value) :
    (Rspc.btreeGet (Legacy.execPartition r kind).1 key = none →
      r.exec ctx kind key input = Except.error (Legacy.ExecError.OperationNotFound key))
    ∧ (Rspc.btreeGet r.subscriptions.store key = none →
      r.exec_subscription ctx key input
        = Except.error (Legacy.ExecError.OperationNotFound key))
    ∧ (Legacy.Router.empty Ctx).exec ctx kind key input
        = Except.error (Legacy.ExecError.OperationNotFound key)
    ∧ (Legacy.Router.empty Ctx).exec_subscription ctx key input
        = Except.error (Legacy.ExecError.OperationNotFound key) := by
  refine ⟨?_, ?_, ?_, ?_⟩
  · intro hq
    simp [Legacy.Router.exec, hq]
  · intro hs
    simp [Legacy.Router.exec_subscription, hs]
  · cases kind <;> rfl
  · rfl

/-- C6 witness: a key registered only as a subscription misses the
query partition of `exec`, a key registered only as a query misses
the subscription partition of `exec_subscription`, and the empty
registry misses any key. -/
theorem exec_operation_not_found_witness :
    Legacy.mismatchRouter.exec () Legacy.ExecKind.query "s" none
      = Except.error (Legacy.ExecError.OperationNotFound "s")
    ∧ Legacy.mismatchRouter.exec_subscription () "q" none
      = Except.error (Legacy.ExecError.OperationNotFound "q")
    ∧ (Legacy.Router.empty Unit).exec () Legacy.ExecKind.query "x" none
      = Except.error (Legacy.ExecError.OperationNotFound "x") :=
  ⟨(exec_operation_not_found Legacy.mismatchRouter () Legacy.ExecKind.query
      "s" none).1 rfl,
   (exec_operation_not_found Legacy.mismatchRouter () Legacy.ExecKind.query
      "q" none).2.1 rfl,
   (exec_operation_not_found (Legacy.Router.empty Unit) () Legacy.ExecKind.query
      "x" none).2.2.1⟩

/-- C7: the query/mutation entry point rejects an operation resolving
to a `Stream` outcome with `UnsupportedMethod(key)`, and the
subscription entry point symmetrically rejects an operation resolving
to a single `Value`. -/
theorem exec_kind_mismatch_unsupported {Ctx : Type} (r : Legacy.Router Ctx) (ctx : Ctx)
    (kind : Legacy.ExecKind) (key : String) (input : Option Legacy.Value) :
    (∀ p s, Rspc.btreeGet (Legacy.execPartition r kind).1 key = some p →
      p.exec ctx (input.getD Legacy.Value.null)
          { kind := (Legacy.execPartition r kind).2, path := key }
        = Except.ok (Legacy.ValueOrStream.stream s) →
      r.exec ctx kind key input = Except.error (Legacy.ExecError.UnsupportedMethod key))
    ∧ (∀ p v, Rspc.btreeGet r.subscriptions.store key = some p →
      p.exec ctx (input.getD Legacy.Value.null)
          { kind := Legacy.ProcedureKind.subscription, path := key }
        = Except.ok (Legacy.ValueOrStream.value v) →
      r.exec_subscription ctx key input
        = Except.error (Legacy.ExecError.UnsupportedMethod key)) := by
  constructor
  · intro p s h1 h2
    simp [Legacy.Router.exec, h1, h2]
  · intro p v h1 h2
    simp [Legacy.Router.exec_subscription, h1, h2]

/-- C7 witness: a stream-resolving query and a value-resolving
subscription both fail with `UnsupportedMethod`. -/
theorem exec_kind_mismatch_unsupported_witness :
    Legacy.mismatchRouter.exec () Legacy.ExecKind.query "q" none
      = Except.error (Legacy.ExecError.UnsupportedMethod "q")
    ∧ Legacy.mismatchRouter.exec_subscription () "s" none
      = Except.error (Legacy.ExecError.UnsupportedMethod "s") :=
  ⟨(exec_kind_mismatch_unsupported Legacy.mismatchRouter () Legacy.ExecKind.query
      "q" none).1 Legacy.streamProc [] rfl rfl,
   (exec_kind_mismatch_unsupported Legacy.mismatchRouter () Legacy.ExecKind.query
      "s" none).2 Legacy.valueProc Legacy.Value.null rfl rfl⟩

/-- C8: a procedure store with zero entries of a kind renders its
per-kind union as the TypeScript bottom type `never`, not as an empty
union expression. -/
theorem generate_procedures_ts_empty_never (render : Legacy.DataType → String)
    (procs : List (String × Legacy.ProcedureTy)) (h : procs.length = 0) :
    Legacy.generate_procedures_ts render procs = "never" := by
  have hnil : procs = [] := List.length_eq_zero.mp h
  subst hnil
  rfl

/-- C8 witness: the empty store renders as `never`. -/
theorem generate_procedures_ts_empty_never_witness :
    ([] : List (String × Legacy.ProcedureTy)).length = 0
    ∧ Legacy.generate_procedures_ts (fun _ => "T") [] = "never" :=
  ⟨rfl, generate_procedures_ts_empty_never (fun _ => "T") [] rfl⟩

/-- C9: in a rendered record the `input` field of an operation whose
argument type is the empty tuple is the bottom type `never`, and any
other argument type is rendered through the normal external type
renderer. -/
theorem generate_procedures_ts_input_rendering (render : Legacy.DataType → String)
    (key : String) (argTy resTy : Legacy.DataType) :
    Legacy.generate_procedures_ts render [(key, { arg_ty := argTy, result_ty := resTy })]
      = "\n        \x7b key: \"" ++ key ++ "\", input: "
        ++ Legacy.renderInput render argTy ++ ", result: " ++ render resTy ++ " \x7d"
    ∧ Legacy.renderInput render (Legacy.DataType.tuple []) = "never"
    ∧ (∀ els, els ≠ [] →
        Legacy.renderInput render (Legacy.DataType.tuple els)
          = render (Legacy.DataType.tuple els))
    ∧ (∀ nm, Legacy.renderInput render (Legacy.DataType.primitive nm)
        = render (Legacy.DataType.primitive nm))
    ∧ (∀ nm, Legacy.renderInput render (Legacy.DataType.reference nm)
        = render (Legacy.DataType.reference nm)) := by
  refine ⟨rfl, rfl, ?_, fun _ => rfl, fun _ => rfl⟩
  intro els hne
  cases els with
  | nil => exact absurd rfl hne
  | cons a l => rfl

/-- C9 witness: the empty-tuple argument renders as `never`, a
non-empty tuple goes through the renderer. -/
theorem generate_procedures_ts_input_rendering_witness :
    Legacy.renderInput (fun _ => "T") (Legacy.DataType.tuple []) = "never"
    ∧ Legacy.renderInput (fun _ => "T")
        (Legacy.DataType.tuple [Legacy.DataType.primitive "i32"]) = "T" :=
  ⟨(generate_procedures_ts_input_rendering (fun _ => "T") "k"
      (Legacy.DataType.tuple []) (Legacy.DataType.tuple [])).2.1,
   (generate_procedures_ts_input_rendering (fun _ => "T") "k"
      (Legacy.DataType.tuple []) (Legacy.DataType.tuple [])).2.2.1
     [Legacy.DataType.primitive "i32"] (by simp)⟩
